import Mathlib

/-!
Shallow embedding of the ai-scp-deployment-agent pipeline
(`src/bin/ai_agent.py`) and proofs about its specification.

The embedding models the event-to-outcome pipeline of
`MarkdownEventHandler.on_created` together with its helpers
`atomic_move`, `preflight_check`, `load_private_key`, `get_ssh_client`,
`upload_file_via_scp` and `run_remote_script`.  Directories are modelled
as finite sets of file names; external effects (reads, socket probes,
SSH connections, remote exit codes, filesystem operation outcomes) are
supplied by an explicit `World` oracle; Python exceptions are modelled
as `Option Err` / `Except Err` values threaded through the control flow,
including `try`/`except`/`finally` semantics and the unbound-local
(`NameError`) behaviour of `temp_path` in the `finally` block.
-/

namespace AiAgent

/-- Python exceptions that the embedded code can raise. -/
inductive Err where
  | ioError (msg : String)
  | pipelineError (msg : String)
  | nameError
  | fileNotFound (msg : String)
  | sshError (msg : String)
  | valueError (msg : String)
deriving DecidableEq

/-- Observable actions of one pipeline run, recorded in order. -/
inductive Event where
  | artifactCreated
  | artifactWritten (content : String)
  | preflightProbe
  | sessionConnect
  | sftpPut
  | execCommand
  | movedProcessed
  | movedFailed
deriving DecidableEq

/-- A calendar date, standing for `datetime.now()` on the day of the run. -/
structure Date where
  year : Nat
  month : Nat
  day : Nat
deriving DecidableEq

/-- Month abbreviations as produced by `strftime("%b")` in the C locale. -/
def month_abbrev : Nat → String
  | 1 => "Jan"
  | 2 => "Feb"
  | 3 => "Mar"
  | 4 => "Apr"
  | 5 => "May"
  | 6 => "Jun"
  | 7 => "Jul"
  | 8 => "Aug"
  | 9 => "Sep"
  | 10 => "Oct"
  | 11 => "Nov"
  | 12 => "Dec"
  | _ => ""

/-- Zero-padded two-digit day, as produced by `strftime("%d")`. -/
def pad2 (n : Nat) : String :=
  if n < 10 then "0" ++ toString n else toString n

/-- Python's `str.upper()`, character by character. -/
def str_upper (s : String) : String :=
  ⟨s.data.map Char.toUpper⟩

/-- Python's `str.endswith(t)`. -/
def py_endswith (s t : String) : Bool :=
  t.data.isSuffixOf s.data

/-- `datetime.now().strftime("%d%b%Y").upper()` of line 142. -/
def date_stamp (d : Date) : String :=
  str_upper (pad2 d.day ++ month_abbrev d.month ++ toString d.year)

/-- Index of the last dot in a character list, if any. -/
def last_dot_idx : List Char → Option Nat
  | [] => none
  | c :: rest =>
    match last_dot_idx rest with
    | some i => some (i + 1)
    | none => if c = '.' then some 0 else none

/-- The stem part of `os.path.splitext` for a plain base name: split at the
last dot, provided at least one character before it is not a dot. -/
def splitext_stem (s : String) : String :=
  match last_dot_idx s.data with
  | none => s
  | some i =>
    if (s.data.take i).any (fun c => c != '.') then ⟨s.data.take i⟩ else s

/-- Python's single-character `str.replace('_', ' ')`. -/
def replace_underscores (s : String) : String :=
  ⟨s.data.map (fun c => if c = '_' then ' ' else c)⟩

/-- Helper for `str.title()`: uppercase an alphabetic character that follows
a non-alphabetic one, lowercase the rest, tracking the previous character. -/
def py_title_go : Bool → List Char → List Char
  | _, [] => []
  | prevAlpha, c :: cs =>
    if c.isAlpha then
      (if prevAlpha then c.toLower else c.toUpper) :: py_title_go true cs
    else
      c :: py_title_go false cs

/-- Python's `str.title()`. -/
def py_title (s : String) : String :=
  ⟨py_title_go false s.data⟩

/-- `os.path.splitext(file_name)[0].replace('_', ' ').title()` of line 143. -/
def title_of (file_name : String) : String :=
  py_title (replace_underscores (splitext_stem file_name))

/-- The front-matter block composed on line 144. -/
def front_matter (d : Date) (file_name : String) : String :=
  "---\ntitle: " ++ title_of file_name ++ "\nauthor: Alex\ndate: " ++
    date_stamp d ++ "\n---\n\n"

/-- Content written to the temporary artifact on line 148:
front matter followed by the unmodified original content. -/
def enriched_content (d : Date) (file_name original : String) : String :=
  front_matter d file_name ++ original

/-- The relevant directories of the local and remote filesystems, each a
finite set of file names (a directory holds no duplicate names). -/
structure FsState where
  watch : Finset String
  processedD : Finset String
  failedD : Finset String
  tmpDir : Finset String
  remoteD : Finset String
deriving DecidableEq

/-- Oracle for every external effect of one pipeline run: the wall clock,
the name `tempfile` picks, file contents, and the outcome of each fallible
operating-system or network operation. -/
structure World where
  today : Date
  tmpName : String
  originalContent : String
  readOk : Bool
  createTempOk : Bool
  writeTempOk : Bool
  sockOk : Bool
  uploadConnectOk : Bool
  putOk : Bool
  execConnectOk : Bool
  exitCode : Nat
  remoteStdout : String
  remoteStderr : String
  mkdirOkP : Bool
  moveOkP : Bool
  renameOkP : Bool
  mkdirOkF : Bool
  moveOkF : Bool
  renameOkF : Bool

/-- `atomic_move(src, dest_dir)` of lines 56-61: `os.makedirs`, then
`shutil.move` of the source onto a hidden `.{basename}.tmp` name inside the
destination directory, then `os.rename` to the final basename.  Each step can
fail per the given flags (and `shutil.move` fails if the source is absent);
on failure the partially updated directories are returned together with the
raised exception, since the caller's control flow continues with them. -/
def atomic_move (srcName : String) (srcDir destDir : Finset String)
    (mkdirOk moveOk renameOk : Bool) :
    Finset String × Finset String × Option Err :=
  if mkdirOk = false then
    (srcDir, destDir, some (Err.ioError "makedirs failed"))
  else
    let temp_dest := "." ++ srcName ++ ".tmp"
    if srcName ∉ srcDir then
      (srcDir, destDir, some (Err.fileNotFound srcName))
    else if moveOk = false then
      (srcDir, destDir, some (Err.ioError "move failed"))
    else
      let srcDir1 := srcDir.erase srcName
      let destDir1 := insert temp_dest destDir
      if renameOk = false then
        (srcDir1, destDir1, some (Err.ioError "rename failed"))
      else
        (srcDir1, insert srcName (destDir1.erase temp_dest), none)

/-- `socket.create_connection((host, port), timeout)` of line 49: succeeds or
raises, per the oracle. -/
def socket_create_connection (sockOk : Bool) : Except Err Unit :=
  if sockOk then Except.ok () else Except.error (Err.ioError "connection failed")

/-- `preflight_check` of lines 47-54: returns `true` on a successful probe and
normalizes every raised error to `false`. -/
def preflight_check (sockOk : Bool) : Bool :=
  match socket_create_connection sockOk with
  | Except.ok _ => true
  | Except.error _ => false

/-- `upload_file_via_scp` of lines 96-109: opens a fresh SSH session, then
`sftp.put`; returns whether the upload succeeded, the new remote directory,
and the attempted actions.  Every exception is caught and turned into
`false`. -/
def upload_file_via_scp (connectOk putOk : Bool) (remoteName : String)
    (remoteD : Finset String) : Bool × Finset String × List Event :=
  if connectOk = false then
    (false, remoteD, [Event.sessionConnect])
  else if putOk = false then
    (false, remoteD, [Event.sessionConnect, Event.sftpPut])
  else
    (true, insert remoteName remoteD, [Event.sessionConnect, Event.sftpPut])

/-- `run_remote_script` of lines 111-128: opens a fresh SSH session, runs the
command, logs stderr as a warning, and returns `true` exactly when the exit
status is `0`.  Every exception is caught and turned into `false`.  Result:
(success, attempted actions, whether a stderr warning was logged). -/
def run_remote_script (connectOk : Bool) (exitCode : Nat)
    (stdoutS stderrS : String) : Bool × List Event × Bool :=
  if connectOk = false then
    (false, [Event.sessionConnect], false)
  else
    ((exitCode == 0 : Bool), [Event.sessionConnect, Event.execCommand],
      !(stderrS == ""))

/-- Result of the `try` block of `on_created`, lines 141-158: the filesystem,
the actions taken, whether the local `temp_path` was assigned, and the raised
exception if any. -/
structure TryResult where
  fs : FsState
  trace : List Event
  tempAssigned : Bool
  err : Option Err
deriving DecidableEq

/-- Result of a whole `on_created` call: the filesystem, the actions taken,
and the exception escaping the handler, if any. -/
structure RunResult where
  fs : FsState
  trace : List Event
  err : Option Err
deriving DecidableEq

/-- The `try` block of `on_created` (lines 141-158): compose the front
matter, read the original, write the enriched artifact (the `temp_path`
local is assigned only after the write), preflight-check, upload, run the
remote script, and on full success move the original to the processed
directory.  Any stage returning `False` raises; any filesystem failure
raises. -/
def on_created_try (w : World) (file_name : String) (s : FsState) : TryResult :=
  if w.readOk = false then
    ⟨s, [], false, some (Err.ioError "failed to read source file")⟩
  else if w.createTempOk = false then
    ⟨s, [], false, some (Err.ioError "failed to create temporary file")⟩
  else
    let s1 : FsState := { s with tmpDir := insert w.tmpName s.tmpDir }
    if w.writeTempOk = false then
      ⟨s1, [Event.artifactCreated], false,
        some (Err.ioError "failed to write temporary file")⟩
    else
      let content := enriched_content w.today file_name w.originalContent
      let tr := [Event.artifactCreated, Event.artifactWritten content,
        Event.preflightProbe]
      if preflight_check w.sockOk = false then
        ⟨s1, tr, true, some (Err.pipelineError "Preflight SSH check failed.")⟩
      else
        let remoteName := date_stamp w.today ++ "_" ++ file_name
        let u := upload_file_via_scp w.uploadConnectOk w.putOk remoteName
          s1.remoteD
        if u.1 = false then
          ⟨{ s1 with remoteD := u.2.1 }, tr ++ u.2.2, true,
            some (Err.pipelineError "SCP upload failed.")⟩
        else
          let s2 : FsState := { s1 with remoteD := u.2.1 }
          let rr := run_remote_script w.execConnectOk w.exitCode
            w.remoteStdout w.remoteStderr
          if rr.1 = false then
            ⟨s2, tr ++ u.2.2 ++ rr.2.1, true,
              some (Err.pipelineError "Remote script execution failed.")⟩
          else
            let m := atomic_move file_name s2.watch s2.processedD
              w.mkdirOkP w.moveOkP w.renameOkP
            ⟨{ s2 with watch := m.1, processedD := m.2.1 },
              tr ++ u.2.2 ++ rr.2.1 ++
                (if m.2.2 = none then [Event.movedProcessed] else []),
              true, m.2.2⟩

/-- The `except` block of `on_created` (lines 159-161): if the `try` block
raised, log and move the original to the failed directory; an exception from
that move itself becomes the pending exception. -/
def on_created_except (w : World) (file_name : String) (t : TryResult) :
    FsState × List Event × Option Err :=
  match t.err with
  | none => (t.fs, t.trace, none)
  | some _ =>
    let m := atomic_move file_name t.fs.watch t.fs.failedD
      w.mkdirOkF w.moveOkF w.renameOkF
    ({ t.fs with watch := m.1, failedD := m.2.1 },
      t.trace ++ (if m.2.2 = none then [Event.movedFailed] else []),
      m.2.2)

/-- The `finally` block of `on_created` (lines 162-164): if the `temp_path`
local was never assigned, evaluating it raises `NameError`; otherwise the
artifact is removed if it exists (its absence is not an error). -/
def cleanup_finally (tempAssigned : Bool) (tmpName : String)
    (tmpDir : Finset String) : Finset String × Option Err :=
  if tempAssigned then (tmpDir.erase tmpName, none)
  else (tmpDir, some Err.nameError)

/-- Combine the pending exception of `try`/`except` with the `finally` block:
an exception raised in `finally` replaces the pending one. -/
def on_created_finally (w : World) (t : TryResult)
    (p : FsState × List Event × Option Err) : RunResult :=
  let c := cleanup_finally t.tempAssigned w.tmpName p.1.tmpDir
  ⟨{ p.1 with tmpDir := c.1 }, p.2.1,
    match c.2 with
    | some e => some e
    | none => p.2.2⟩

/-- `MarkdownEventHandler.on_created` of lines 131-164: ignore directory
events and non-`.md` names, then run the pipeline under
`try`/`except`/`finally`. -/
def on_created (w : World) (isDirectory : Bool) (file_name : String)
    (s : FsState) : RunResult :=
  if isDirectory then ⟨s, [], none⟩
  else if py_endswith file_name ".md" = false then ⟨s, [], none⟩
  else
    on_created_finally w (on_created_try w file_name s)
      (on_created_except w file_name (on_created_try w file_name s))

/-- The three key-format decoders, in the order of the `key_loaders` list on
line 67. -/
inductive KeyKind where
  | ed25519
  | ecdsa
  | rsa
deriving DecidableEq

/-- Oracle for one key file: whether it exists and which decoders parse it
(a failing decoder raises `paramiko.SSHException`). -/
structure KeyFile where
  fileExists : Bool
  ed25519Ok : Bool
  ecdsaOk : Bool
  rsaOk : Bool

/-- Whether `key_class.from_private_key_file` parses the file, per kind. -/
def key_decoder_ok (kf : KeyFile) : KeyKind → Bool
  | KeyKind.ed25519 => kf.ed25519Ok
  | KeyKind.ecdsa => kf.ecdsaOk
  | KeyKind.rsa => kf.rsaOk

/-- The `key_loaders` list of line 67. -/
def key_loaders : List KeyKind :=
  [KeyKind.ed25519, KeyKind.ecdsa, KeyKind.rsa]

/-- The loop of lines 68-74: try each decoder in order, returning the list of
decoders actually attempted and the first that succeeded, if any. -/
def try_key_loaders (kf : KeyFile) : List KeyKind → List KeyKind × Option KeyKind
  | [] => ([], none)
  | k :: ks =>
    if key_decoder_ok kf k then ([k], some k)
    else
      let r := try_key_loaders kf ks
      (k :: r.1, r.2)

/-- `load_private_key` of lines 64-75: raise `FileNotFoundError` if the file
is absent, otherwise try the decoders in order and raise `SSHException`
naming the path once all of them have failed.  Also returns the list of
decoders attempted. -/
def load_private_key (key_path : String) (kf : KeyFile) :
    Except Err KeyKind × List KeyKind :=
  if kf.fileExists = false then
    (Except.error (Err.fileNotFound
      ("SSH private key file not found: " ++ key_path)), [])
  else
    let r := try_key_loaders kf key_loaders
    match r.2 with
    | some k => (Except.ok k, r.1)
    | none =>
      (Except.error (Err.sshError
        ("Could not load key from " ++ key_path ++
          ". Tried Ed25519, ECDSA, and RSA.")), r.1)

/-- Observable actions of `get_ssh_client`. -/
inductive SshEvent where
  | keyDecodeTried (k : KeyKind)
  | connectTried
deriving DecidableEq

/-- The `[Remote]` credential configuration:
`ssh_private_key_path` and `remote_password`, each possibly absent. -/
structure SshConfig where
  keyPath : Option String
  password : Option String

/-- `get_ssh_client` of lines 79-94: if a private-key path is configured,
load the key (any error is logged and re-raised) and connect with it; else
if a password is configured, connect with it; else raise `ValueError`.  The
network connection is attempted only with a credential in hand; its outcome
is given by `connectOk`.  Also returns the attempted actions. -/
def get_ssh_client (cfg : SshConfig) (kf : KeyFile) (connectOk : Bool) :
    Except Err Unit × List SshEvent :=
  match cfg.keyPath with
  | some p =>
    let lk := load_private_key p kf
    let tried := lk.2.map SshEvent.keyDecodeTried
    match lk.1 with
    | Except.error e => (Except.error e, tried)
    | Except.ok _ =>
      if connectOk then (Except.ok (), tried ++ [SshEvent.connectTried])
      else (Except.error (Err.sshError "connect failed"),
        tried ++ [SshEvent.connectTried])
  | none =>
    match cfg.password with
    | some _ =>
      if connectOk then (Except.ok (), [SshEvent.connectTried])
      else (Except.error (Err.sshError "connect failed"), [SshEvent.connectTried])
    | none => (Except.error (Err.valueError "No SSH credentials provided."), [])

/-- All pipeline stages succeed: the source is readable, the artifact is
created and written, the preflight probe, the upload session and `sftp.put`
succeed, the remote session succeeds and the remote script exits with `0`. -/
def all_stages_ok (w : World) : Bool :=
  w.readOk && w.createTempOk && w.writeTempOk && w.sockOk &&
    w.uploadConnectOk && w.putOk && w.execConnectOk && (w.exitCode == 0)

/-! Concrete data used by witnesses and counterexamples. -/

/-- A watch directory holding one markdown file, all other directories
empty. -/
def sample_fs : FsState := ⟨{"a.md"}, ∅, ∅, ∅, ∅⟩

/-- A run on 2025-10-05 in which every external operation succeeds and the
remote script exits with `0`. -/
def ok_world : World :=
  ⟨⟨2025, 10, 5⟩, "tmpart.md", "hello", true, true, true, true, true, true,
    true, 0, "", "", true, true, true, true, true, true⟩

/-! Helper lemmas. -/

/-- The hidden temporary name `.{basename}.tmp` never equals the basename. -/
lemma hidden_name_ne (s : String) : ("." ++ s ++ ".tmp") ≠ s := by
  intro h
  have hlen := congrArg String.length h
  rw [String.length_append, String.length_append] at hlen
  have e1 : ("." : String).length = 1 := by decide
  have e2 : (".tmp" : String).length = 4 := by decide
  rw [e1, e2] at hlen
  omega

/-- An element distinct from `b` is not in `if c then [b] else []`. -/
lemma not_mem_if_singleton {α : Type} (a b : α) (c : Prop) [Decidable c]
    (h : a ≠ b) : a ∉ (if c then [b] else ([] : List α)) := by
  split <;> simp [h]

/-- The `finally` step passes the trace through unchanged. -/
lemma finally_trace (w : World) (t : TryResult)
    (p : FsState × List Event × Option Err) :
    (on_created_finally w t p).trace = p.2.1 := rfl

/-- The `finally` step only touches the temporary directory. -/
lemma finally_remoteD (w : World) (t : TryResult)
    (p : FsState × List Event × Option Err) :
    (on_created_finally w t p).fs.remoteD = p.1.remoteD := rfl

/-- The `finally` step erases the artifact exactly when `temp_path` was
assigned, and otherwise raises `NameError` leaving the directory alone. -/
lemma finally_tmpDir (w : World) (t : TryResult)
    (p : FsState × List Event × Option Err) :
    (on_created_finally w t p).fs.tmpDir =
      if t.tempAssigned then p.1.tmpDir.erase w.tmpName else p.1.tmpDir := by
  cases hta : t.tempAssigned <;>
    simp [on_created_finally, cleanup_finally, hta]

/-- The `except` step never touches the temporary directory. -/
lemma except_tmpDir (w : World) (f : String) (t : TryResult) :
    (on_created_except w f t).1.tmpDir = t.fs.tmpDir := by
  cases ht : t.err <;> simp [on_created_except, ht]

/-- The `except` step never touches the remote directory. -/
lemma except_remoteD (w : World) (f : String) (t : TryResult) :
    (on_created_except w f t).1.remoteD = t.fs.remoteD := by
  cases ht : t.err <;> simp [on_created_except, ht]

/-- The local `temp_path` is assigned exactly when the source was read and
the artifact was both created and written. -/
lemma try_tempAssigned (w : World) (f : String) (s : FsState) :
    (on_created_try w f s).tempAssigned =
      (w.readOk && w.createTempOk && w.writeTempOk) := by
  cases hr : w.readOk <;> cases hc : w.createTempOk <;>
    cases hwt : w.writeTempOk <;> cases hso : w.sockOk <;>
    cases huc : w.uploadConnectOk <;> cases hpu : w.putOk <;>
    cases hec : w.execConnectOk <;>
    simp [on_created_try, preflight_check, socket_create_connection,
      upload_file_via_scp, run_remote_script, hr, hc, hwt, hso, huc, hpu,
      hec] <;>
    (try split) <;> rfl

/-- The artifact file appears in the temporary directory exactly when its
creation was attempted and succeeded. -/
lemma try_tmpDir (w : World) (f : String) (s : FsState) :
    (on_created_try w f s).fs.tmpDir =
      (if (w.readOk && w.createTempOk) = true then insert w.tmpName s.tmpDir
       else s.tmpDir) := by
  cases hr : w.readOk <;> cases hc : w.createTempOk <;>
    cases hwt : w.writeTempOk <;> cases hso : w.sockOk <;>
    cases huc : w.uploadConnectOk <;> cases hpu : w.putOk <;>
    cases hec : w.execConnectOk <;>
    simp [on_created_try, preflight_check, socket_create_connection,
      upload_file_via_scp, run_remote_script, hr, hc, hwt, hso, huc, hpu,
      hec] <;>
    (try split) <;> rfl

/-! Claim theorems. -/

set_option maxHeartbeats 3200000 in
/-- Claim C1: for every detected watched `.md` file, provided the filing
filesystem operations themselves succeed, a pipeline run files the original
into exactly one of the processed and the failed directory — processed
exactly when every stage succeeded, failed exactly when some stage failed —
and never leaves it in the watch directory. -/
theorem C1_exactly_one_destination (w : World) (f : String) (s : FsState)
    (hmd : py_endswith f ".md" = true)
    (hw : f ∈ s.watch) (hp : f ∉ s.processedD) (hf : f ∉ s.failedD)
    (hp1 : w.mkdirOkP = true) (hp2 : w.moveOkP = true) (hp3 : w.renameOkP = true)
    (hf1 : w.mkdirOkF = true) (hf2 : w.moveOkF = true) (hf3 : w.renameOkF = true) :
    f ∉ (on_created w false f s).fs.watch ∧
    (f ∈ (on_created w false f s).fs.processedD ↔ all_stages_ok w = true) ∧
    (f ∈ (on_created w false f s).fs.failedD ↔ all_stages_ok w = false) := by
  cases hr : w.readOk <;> cases hc : w.createTempOk <;>
    cases hwt : w.writeTempOk <;> cases hso : w.sockOk <;>
    cases huc : w.uploadConnectOk <;> cases hpu : w.putOk <;>
    cases hec : w.execConnectOk <;> by_cases hx : w.exitCode = 0 <;>
    simp [on_created, on_created_try, on_created_except, on_created_finally,
      cleanup_finally, atomic_move, preflight_check, socket_create_connection,
      upload_file_via_scp, run_remote_script, all_stages_ok, hmd, hw, hp, hf,
      hr, hc, hwt, hso, huc, hpu, hec, hx, hp1, hp2, hp3, hf1, hf2, hf3,
      Finset.mem_insert, Finset.not_mem_erase, Finset.mem_erase,
      hidden_name_ne]

/-- Witness for C1 at a concrete run in which every stage succeeds. -/
theorem C1_witness :
    "a.md" ∉ (on_created ok_world false "a.md" sample_fs).fs.watch ∧
    ("a.md" ∈ (on_created ok_world false "a.md" sample_fs).fs.processedD ↔
      all_stages_ok ok_world = true) ∧
    ("a.md" ∈ (on_created ok_world false "a.md" sample_fs).fs.failedD ↔
      all_stages_ok ok_world = false) :=
  C1_exactly_one_destination ok_world "a.md" sample_fs (by decide) (by decide)
    (by decide) (by decide) rfl rfl rfl rfl rfl rfl

/-- Claim C2 counterexample: a concrete run in which the `os.rename` of the
failure filing fails; the error raised by the filing operation propagates out
of the event handler, so the filing operation does raise to its caller and
an exception from processing a single file does escape the handler. -/
theorem C2_filing_error_escapes :
    (on_created { ok_world with sockOk := false, renameOkF := false }
      false "a.md" sample_fs).err = some (Err.ioError "rename failed") := by
  decide

/-- Claim C2 (amended): every error raised by a pipeline stage — preflight,
upload, or remote execution — is caught at the orchestrator boundary and
converted into a failure filing with no exception escaping the event
handler, provided the artifact was created and written (so the `temp_path`
local is assigned) and the filing filesystem operations themselves succeed;
the filing operation itself can raise to its caller. -/
theorem C2_stage_errors_confined (w : World) (f : String) (s : FsState)
    (hmd : py_endswith f ".md" = true) (hw : f ∈ s.watch)
    (hr : w.readOk = true) (hc : w.createTempOk = true) (hwt : w.writeTempOk = true)
    (hp1 : w.mkdirOkP = true) (hp2 : w.moveOkP = true) (hp3 : w.renameOkP = true)
    (hf1 : w.mkdirOkF = true) (hf2 : w.moveOkF = true) (hf3 : w.renameOkF = true) :
    (on_created w false f s).err = none := by
  cases hso : w.sockOk <;> cases huc : w.uploadConnectOk <;>
    cases hpu : w.putOk <;> cases hec : w.execConnectOk <;>
    by_cases hx : w.exitCode = 0 <;>
    simp [on_created, on_created_try, on_created_except, on_created_finally,
      cleanup_finally, atomic_move, preflight_check, socket_create_connection,
      upload_file_via_scp, run_remote_script, hmd, hw, hr, hc, hwt,
      hso, huc, hpu, hec, hx, hp1, hp2, hp3, hf1, hf2, hf3]

/-- Witness for C2 (amended): a concrete run whose preflight fails and whose
filing succeeds ends with no escaping exception. -/
theorem C2_witness :
    (on_created { ok_world with sockOk := false } false "a.md" sample_fs).err
      = none :=
  C2_stage_errors_confined { ok_world with sockOk := false } "a.md" sample_fs
    (by decide) (by decide) rfl rfl rfl rfl rfl rfl rfl rfl rfl

/-- Claim C3 counterexample: a concrete run in which the temporary artifact
file is created but the write to it fails.  `temp_path` is never assigned,
so cleanup raises `NameError` and the artifact is still on disk after the
run completes — it is not deleted unconditionally at run end. -/
theorem C3_artifact_leaked :
    ({ ok_world with writeTempOk := false } : World).tmpName ∈
      (on_created { ok_world with writeTempOk := false }
        false "a.md" sample_fs).fs.tmpDir ∧
    (on_created { ok_world with writeTempOk := false }
      false "a.md" sample_fs).err = some Err.nameError := by
  decide

/-- Claim C3 (amended): in every run that does not fail between creating the
artifact file and assigning its path (that is, whenever artifact creation
succeeding implies the write succeeding), the transient artifact is absent
from the filesystem after the run completes, in both the success and failure
paths; and the cleanup step tolerates the artifact already being absent
without treating that as an error. -/
theorem C3_artifact_absent (w : World) (b : Bool) (f : String) (s : FsState)
    (ha : w.tmpName ∉ s.tmpDir)
    (hcw : w.createTempOk = true → w.writeTempOk = true) :
    w.tmpName ∉ (on_created w b f s).fs.tmpDir ∧
    (∀ (n : String) (d : Finset String), n ∉ d →
      cleanup_finally true n d = (d, none)) := by
  constructor
  · cases b with
    | true => simpa [on_created] using ha
    | false =>
      by_cases hmd : py_endswith f ".md" = false
      · simpa [on_created, hmd] using ha
      · have hres : on_created w false f s =
            on_created_finally w (on_created_try w f s)
              (on_created_except w f (on_created_try w f s)) := by
          simp [on_created, hmd]
        rw [hres, finally_tmpDir]
        cases hta : (on_created_try w f s).tempAssigned
        · rw [if_neg (by simp [hta]), except_tmpDir, try_tmpDir]
          by_cases hrc : (w.readOk && w.createTempOk) = true
          · exfalso
            rw [Bool.and_eq_true] at hrc
            have h0 : w.readOk = true := hrc.1
            have h1 : w.createTempOk = true := hrc.2
            have h2 := hcw h1
            rw [try_tempAssigned, h0, h1, h2] at hta
            simp at hta
          · rw [if_neg hrc]
            exact ha
        · rw [if_pos (by simp [hta]), except_tmpDir]
          exact Finset.not_mem_erase _ _
  · intro n d hnd
    simp [cleanup_finally, Finset.erase_eq_of_not_mem hnd]

/-- Witness for C3 (amended) at a concrete fully successful run. -/
theorem C3_witness :
    ok_world.tmpName ∉ (on_created ok_world false "a.md" sample_fs).fs.tmpDir ∧
    (∀ (n : String) (d : Finset String), n ∉ d →
      cleanup_finally true n d = (d, none)) :=
  C3_artifact_absent ok_world false "a.md" sample_fs (by decide) (fun _ => rfl)

/-- Claim C4: once the preflighted delivery stage is reached, the run files
the original into the processed directory exactly when the upload session
and `sftp.put` succeed, the remote session succeeds, and the remote exit
code equals `0`; `run_remote_script` succeeds exactly when the session works
and the exit code is `0` regardless of the stderr text, and it logs a stderr
warning exactly when stderr is non-empty. -/
theorem C4_success_iff_upload_and_exit_zero (w : World) (f : String)
    (s : FsState)
    (hmd : py_endswith f ".md" = true) (hw : f ∈ s.watch) (hp : f ∉ s.processedD)
    (hr : w.readOk = true) (hc : w.createTempOk = true) (hwt : w.writeTempOk = true)
    (hso : w.sockOk = true)
    (hp1 : w.mkdirOkP = true) (hp2 : w.moveOkP = true) (hp3 : w.renameOkP = true)
    (hf1 : w.mkdirOkF = true) (hf2 : w.moveOkF = true) (hf3 : w.renameOkF = true) :
    (f ∈ (on_created w false f s).fs.processedD ↔
      (w.uploadConnectOk && w.putOk && w.execConnectOk && (w.exitCode == 0))
        = true) ∧
    (∀ (c : Bool) (x : Nat) (o e : String),
      (run_remote_script c x o e).1 = (c && (x == 0))) ∧
    (∀ (x : Nat) (o e : String),
      (run_remote_script true x o e).2.2 = !(e == "")) := by
  refine ⟨?_, ?_, ?_⟩
  · cases huc : w.uploadConnectOk <;> cases hpu : w.putOk <;>
      cases hec : w.execConnectOk <;> by_cases hx : w.exitCode = 0 <;>
      simp [on_created, on_created_try, on_created_except, on_created_finally,
        cleanup_finally, atomic_move, preflight_check, socket_create_connection,
        upload_file_via_scp, run_remote_script, hmd, hw, hp, hr, hc, hwt, hso,
        huc, hpu, hec, hx, hp1, hp2, hp3, hf1, hf2, hf3,
        Finset.mem_insert, Finset.not_mem_erase, Finset.mem_erase]
  · intro c x o e
    cases c <;> simp [run_remote_script]
  · intro x o e
    simp [run_remote_script]

/-- Witness for C4 at a concrete run whose remote script exits with `2`:
the upload succeeded, yet the file is filed as failed, not processed. -/
theorem C4_witness :
    ("a.md" ∈ (on_created { ok_world with exitCode := 2 }
        false "a.md" sample_fs).fs.processedD ↔
      (({ ok_world with exitCode := 2 } : World).uploadConnectOk &&
        ({ ok_world with exitCode := 2 } : World).putOk &&
        ({ ok_world with exitCode := 2 } : World).execConnectOk &&
        (({ ok_world with exitCode := 2 } : World).exitCode == 0)) = true) ∧
    (∀ (c : Bool) (x : Nat) (o e : String),
      (run_remote_script c x o e).1 = (c && (x == 0))) ∧
    (∀ (x : Nat) (o e : String),
      (run_remote_script true x o e).2.2 = !(e == "")) :=
  C4_success_iff_upload_and_exit_zero { ok_world with exitCode := 2 } "a.md"
    sample_fs (by decide) (by decide) (by decide) rfl rfl rfl rfl rfl rfl rfl
    rfl rfl rfl

/-- Claim C5 counterexample: when the destination directory already contains
a file under the final filename (same-name reprocessing), stopping the move
between the temporary move and the rename leaves the destination directory
still holding the final filename, contrary to the claim that it is free of
it. -/
theorem C5_preexisting_final_name :
    "a.md" ∈ (atomic_move "a.md" {"a.md"} {"a.md"} true true false).2.1 := by
  decide

/-- Claim C5 (amended): the move algorithm creates the destination directory,
moves the source into it under the hidden name `.{basename}.tmp`, then
renames it to its final name in the same directory; provided the destination
did not already contain the final filename, stopping between the temporary
move and the rename leaves the destination free of the final filename, while
a completed move ends with the final name present and the hidden name
absent. -/
theorem C5_two_step_move (src : String) (srcDir destDir : Finset String)
    (hs : src ∈ srcDir) (hd : src ∉ destDir) :
    (atomic_move src srcDir destDir true true false).2.1 =
      insert ("." ++ src ++ ".tmp") destDir ∧
    src ∉ (atomic_move src srcDir destDir true true false).2.1 ∧
    atomic_move src srcDir destDir true true true =
      (srcDir.erase src,
        insert src ((insert ("." ++ src ++ ".tmp") destDir).erase
          ("." ++ src ++ ".tmp")), none) ∧
    src ∈ (atomic_move src srcDir destDir true true true).2.1 ∧
    ("." ++ src ++ ".tmp") ∉ (atomic_move src srcDir destDir true true true).2.1
    := by
  refine ⟨?_, ?_, ?_, ?_, ?_⟩ <;>
    simp [atomic_move, hs, hd, Finset.mem_insert, Finset.not_mem_erase,
      hidden_name_ne src, Ne.symm (hidden_name_ne src)]

/-- Witness for C5 (amended) moving into an empty destination directory. -/
theorem C5_witness :
    (atomic_move "a.md" {"a.md"} ∅ true true false).2.1 =
      insert ("." ++ "a.md" ++ ".tmp") ∅ ∧
    "a.md" ∉ (atomic_move "a.md" {"a.md"} ∅ true true false).2.1 ∧
    atomic_move "a.md" {"a.md"} ∅ true true true =
      (({"a.md"} : Finset String).erase "a.md",
        insert "a.md" ((insert ("." ++ "a.md" ++ ".tmp")
          (∅ : Finset String)).erase ("." ++ "a.md" ++ ".tmp")), none) ∧
    "a.md" ∈ (atomic_move "a.md" {"a.md"} ∅ true true true).2.1 ∧
    ("." ++ "a.md" ++ ".tmp") ∉
      (atomic_move "a.md" {"a.md"} ∅ true true true).2.1 :=
  C5_two_step_move "a.md" {"a.md"} ∅ (by decide) (by decide)

/-- Claim C6 counterexample: a concrete run whose connectivity probe fails
nevertheless creates the enriched artifact — enrichment happens before the
preflight check, so the preflight does not gate enrichment. -/
theorem C6_artifact_created_when_unreachable :
    preflight_check ({ ok_world with sockOk := false } : World).sockOk
      = false ∧
    Event.artifactCreated ∈
      (on_created { ok_world with sockOk := false }
        false "a.md" sample_fs).trace := by
  decide

/-- Claim C6 (amended): when the connectivity probe fails, no
authenticated-session establishment is attempted for that run, but the
enriched artifact has already been created and written: enrichment precedes
the preflight probe in the run's trace. -/
theorem C6_no_session_but_artifact_created (w : World) (f : String)
    (s : FsState) (hmd : py_endswith f ".md" = true)
    (hr : w.readOk = true) (hc : w.createTempOk = true)
    (hwt : w.writeTempOk = true) (hso : w.sockOk = false) :
    Event.sessionConnect ∉ (on_created w false f s).trace ∧
    ∃ content rest, (on_created w false f s).trace =
      Event.artifactCreated :: Event.artifactWritten content ::
        Event.preflightProbe :: rest := by
  have hres : on_created w false f s =
      on_created_finally w (on_created_try w f s)
        (on_created_except w f (on_created_try w f s)) := by
    simp [on_created, hmd]
  have ht : on_created_try w f s =
      ⟨{ s with tmpDir := insert w.tmpName s.tmpDir },
        [Event.artifactCreated,
          Event.artifactWritten (enriched_content w.today f w.originalContent),
          Event.preflightProbe], true,
        some (Err.pipelineError "Preflight SSH check failed.")⟩ := by
    simp [on_created_try, preflight_check, socket_create_connection,
      hr, hc, hwt, hso]
  rw [hres, finally_trace, ht]
  constructor
  · simp [on_created_except, List.mem_append]
  · exact ⟨enriched_content w.today f w.originalContent,
      if (atomic_move f s.watch s.failedD w.mkdirOkF w.moveOkF
        w.renameOkF).2.2 = none then [Event.movedFailed] else [],
      by simp [on_created_except]⟩

/-- Witness for C6 (amended) at a concrete unreachable-endpoint run. -/
theorem C6_witness :
    Event.sessionConnect ∉
      (on_created { ok_world with sockOk := false }
        false "a.md" sample_fs).trace ∧
    ∃ content rest,
      (on_created { ok_world with sockOk := false }
        false "a.md" sample_fs).trace =
      Event.artifactCreated :: Event.artifactWritten content ::
        Event.preflightProbe :: rest :=
  C6_no_session_but_artifact_created { ok_world with sockOk := false } "a.md"
    sample_fs (by decide) rfl rfl rfl rfl

/-- Claim C7: with the key file present, loading tries the decoders in the
fixed order Ed25519, ECDSA, RSA, returns the key of the first decoder that
parses the file, and raises the `SSHException` naming the path only after
all three decoders have been attempted and failed. -/
theorem C7_decoder_order_first_success (p : String) (kf : KeyFile)
    (hex : kf.fileExists = true) :
    load_private_key p kf =
      (if kf.ed25519Ok = true then
        (Except.ok KeyKind.ed25519, [KeyKind.ed25519])
       else if kf.ecdsaOk = true then
        (Except.ok KeyKind.ecdsa, [KeyKind.ed25519, KeyKind.ecdsa])
       else if kf.rsaOk = true then
        (Except.ok KeyKind.rsa, [KeyKind.ed25519, KeyKind.ecdsa, KeyKind.rsa])
       else
        (Except.error (Err.sshError ("Could not load key from " ++ p ++
          ". Tried Ed25519, ECDSA, and RSA.")),
          [KeyKind.ed25519, KeyKind.ecdsa, KeyKind.rsa])) := by
  cases h1 : kf.ed25519Ok <;> cases h2 : kf.ecdsaOk <;> cases h3 : kf.rsaOk <;>
    simp [load_private_key, try_key_loaders, key_loaders, key_decoder_ok,
      hex, h1, h2, h3]

/-- Witness for C7 at a key file that only the RSA decoder parses: the first
two decoders are attempted and the RSA key is returned. -/
theorem C7_witness :
    load_private_key "id_rsa" ⟨true, false, false, true⟩ =
      (if (⟨true, false, false, true⟩ : KeyFile).ed25519Ok = true then
        (Except.ok KeyKind.ed25519, [KeyKind.ed25519])
       else if (⟨true, false, false, true⟩ : KeyFile).ecdsaOk = true then
        (Except.ok KeyKind.ecdsa, [KeyKind.ed25519, KeyKind.ecdsa])
       else if (⟨true, false, false, true⟩ : KeyFile).rsaOk = true then
        (Except.ok KeyKind.rsa, [KeyKind.ed25519, KeyKind.ecdsa, KeyKind.rsa])
       else
        (Except.error (Err.sshError ("Could not load key from " ++ "id_rsa" ++
          ". Tried Ed25519, ECDSA, and RSA.")),
          [KeyKind.ed25519, KeyKind.ecdsa, KeyKind.rsa])) :=
  C7_decoder_order_first_success "id_rsa" ⟨true, false, false, true⟩ rfl

/-- Claim C8: front-matter generation is a deterministic function of the
clock and the filename: `my_notes.md` on 2025-10-05 yields the block with
title `My Notes` and date `05OCT2025`, keys in the order title, author,
date, framed by `---` lines and followed by a blank line, and the enriched
artifact is that block followed by the original content unmodified. -/
theorem C8_front_matter_deterministic :
    front_matter ⟨2025, 10, 5⟩ "my_notes.md" =
      "---\ntitle: My Notes\nauthor: Alex\ndate: 05OCT2025\n---\n\n" ∧
    ∀ content : String, enriched_content ⟨2025, 10, 5⟩ "my_notes.md" content =
      "---\ntitle: My Notes\nauthor: Alex\ndate: 05OCT2025\n---\n\n" ++
        content := by
  have h : front_matter ⟨2025, 10, 5⟩ "my_notes.md" =
      "---\ntitle: My Notes\nauthor: Alex\ndate: 05OCT2025\n---\n\n" := by
    decide
  exact ⟨h, fun content => by unfold enriched_content; rw [h]⟩

/-- Claim C9: in every run whose connectivity probe fails, no SSH session is
attempted and `sftp.put` is never reached, so the remote upload directory is
unchanged; and the probe itself maps every outcome to a plain boolean —
`false` on any error — with no exception escaping to its caller. -/
theorem C9_preflight_failure_blocks_upload (w : World) (b : Bool) (f : String)
    (s : FsState) (hso : w.sockOk = false) :
    Event.sessionConnect ∉ (on_created w b f s).trace ∧
    Event.sftpPut ∉ (on_created w b f s).trace ∧
    (on_created w b f s).fs.remoteD = s.remoteD ∧
    (∀ bb : Bool, preflight_check bb = bb) := by
  cases b with
  | true =>
    simp [on_created, Bool.forall_bool, preflight_check,
      socket_create_connection]
  | false =>
    by_cases hmd : py_endswith f ".md" = false
    · simp [on_created, hmd, Bool.forall_bool, preflight_check,
        socket_create_connection]
    · cases hr : w.readOk <;> cases hc : w.createTempOk <;>
        cases hwt : w.writeTempOk <;>
        simp [on_created, on_created_try, on_created_except,
          on_created_finally, cleanup_finally, preflight_check,
          socket_create_connection, hmd, hr, hc, hwt, hso,
          List.mem_append, Bool.forall_bool]

/-- Witness for C9 at a concrete unreachable-endpoint run. -/
theorem C9_witness :
    Event.sessionConnect ∉
      (on_created { ok_world with sockOk := false }
        true "a.md" sample_fs).trace ∧
    Event.sftpPut ∉
      (on_created { ok_world with sockOk := false }
        true "a.md" sample_fs).trace ∧
    (on_created { ok_world with sockOk := false }
      true "a.md" sample_fs).fs.remoteD = sample_fs.remoteD ∧
    (∀ bb : Bool, preflight_check bb = bb) :=
  C9_preflight_failure_blocks_upload { ok_world with sockOk := false } true
    "a.md" sample_fs rfl

/-- Claim C10: with a private-key path configured and no file at that path,
`load_private_key` raises `FileNotFoundError` before attempting any of the
three decoders; the error is distinct from the all-decoders-failed
`SSHException`, and `get_ssh_client` re-raises it without any network
connection attempt. -/
theorem C10_missing_key_short_circuits (p : String) (cfg : SshConfig)
    (kf : KeyFile) (connectOk : Bool)
    (hcfg : cfg.keyPath = some p) (hex : kf.fileExists = false) :
    get_ssh_client cfg kf connectOk =
      (Except.error (Err.fileNotFound
        ("SSH private key file not found: " ++ p)), []) ∧
    (load_private_key p kf).2 = [] ∧
    (∀ msg : String,
      Err.fileNotFound ("SSH private key file not found: " ++ p) ≠
        Err.sshError msg) := by
  refine ⟨?_, ?_, fun msg => by simp⟩
  · simp [get_ssh_client, hcfg, load_private_key, hex]
  · simp [load_private_key, hex]

/-- Witness for C10 with a configured but absent key file. -/
theorem C10_witness :
    get_ssh_client ⟨some "id_ed25519", none⟩ ⟨false, true, true, true⟩ true =
      (Except.error (Err.fileNotFound
        ("SSH private key file not found: " ++ "id_ed25519")), []) ∧
    (load_private_key "id_ed25519" ⟨false, true, true, true⟩).2 = [] ∧
    (∀ msg : String,
      Err.fileNotFound ("SSH private key file not found: " ++ "id_ed25519") ≠
        Err.sshError msg) :=
  C10_missing_key_short_circuits "id_ed25519" ⟨some "id_ed25519", none⟩
    ⟨false, true, true, true⟩ true rfl rfl

end AiAgent
